import Mathlib

/-!
Verification of libbattery (src/libbattery.c) against its natural-language
specification.

The C source is shallowly embedded:
* `fuel_level_LiIon` is the pure fuel estimator (spec name `estimate_percent`).
  C `int` division truncates toward zero, so it is modelled with `Int.tdiv`;
  the kernel-style `int_sqrt` is the integer (floor) square root.
* `GetPowerInfo_Linux_sys_class_power_supply` is modelled over an explicit
  attribute store: a directory listing is a list of entries, each entry a name
  together with an association list from attribute key to the raw file text
  (including the trailing newline, exactly as the C code reads and compares
  it, e.g. against the literal string with a terminating newline character).
  A failed `opendir` is the `none` case of the listing.
* The C code parses `capacity` and `time_to_empty_now` with `atoi`, which is
  modelled faithfully: skip leading whitespace, optional sign, longest digit
  prefix, result 0 when no digits are found.
* The caller passes pointers for `state`, `seconds`, `percent`; this is
  modelled by threading the caller's previous values (`prev`) through
  `getPowerInfo`, which returns the C function's `bool` result together with
  the final contents of those three locations.
-/

/-- The values of `enum battery_state` from battery.h used by the source. -/
inductive BatteryState where
  | noBattery
  | unknown
  | onBattery
  | charging
  | charged
deriving DecidableEq, Repr

/-- C integer division: truncation toward zero, as performed by `/` on `int`. -/
def cDiv (a b : Int) : Int := Int.tdiv a b

/-- Integer square root (`int_sqrt` from the Linux kernel: floor of the real
square root); the source only applies it to a nonnegative argument. -/
def int_sqrt (u : Int) : Int := (Nat.sqrt u.toNat : Int)

/-- Embedding of `fuel_level_LiIon` (src/libbattery.c lines 77-94). -/
def fuel_level_LiIon (mV mA mOhm : Int) : Int :=
  let mV' := mV + cDiv (mOhm * mA) 1000
  let u : Int := 3870000 - (14523 * (37835 - 10 * mV'))
  if u < 0 then
    max (cDiv ((mV' - 3300) * ((3756 - 3300) * 1966)) 100000) 0
  else
    min (cDiv (1966 + int_sqrt u) 100) 100

/-- One power-supply entry: its directory name and the raw text contents of
its attribute files (`read_power_file` returns the whole file text, trailing
newline included). A key that is not in the list is an unreadable or missing
attribute file. -/
structure Entry where
  name : String
  attrs : List (String × String)
deriving DecidableEq, Repr

/-- Embedding of `read_power_file` for one entry: the raw text of the
attribute file, or `none` when the file is missing or unreadable. -/
def readAttr (e : Entry) (key : String) : Option String :=
  e.attrs.lookup key

/-- Digit-accumulating loop of C `atoi`: consume the longest prefix of
decimal digits, starting from accumulator `acc`. -/
def atoiDigits : List Char → Int → Int
  | [], acc => acc
  | c :: cs, acc =>
    if c.isDigit then atoiDigits cs (acc * 10 + (c.toNat - 48 : Nat))
    else acc

/-- C `isspace` characters relevant to `atoi`. -/
def isCSpace (c : Char) : Bool :=
  c = ' ' || c = '\t' || c = '\n' || c = '\x0b' || c = '\x0c' || c = '\r'

/-- Embedding of C `atoi`: skip leading whitespace, optional sign, then the
longest digit prefix; 0 when no digits follow. -/
def atoi (s : String) : Int :=
  match s.data.dropWhile isCSpace with
  | '-' :: rest => - atoiDigits rest 0
  | '+' :: rest => atoiDigits rest 0
  | cs => atoiDigits cs 0

/-- The three caller-visible outputs of
`GetPowerInfo_Linux_sys_class_power_supply`: `*state`, `*seconds`,
`*percent`. The source uses the sentinel -1 for unknown seconds/percent. -/
structure PInfo where
  state : BatteryState
  seconds : Int
  percent : Int
deriving DecidableEq, Repr

/-- The running best initialised at lines 109-111 of the source:
`POWERSTATE_NO_BATTERY`, seconds -1, percent -1. -/
def initInfo : PInfo := ⟨BatteryState.noBattery, -1, -1⟩

/-- The filter of lines 121-137: an entry takes part in the selection exactly
when it is not a `.`/`..` pseudo-entry, its `type` attribute reads exactly
"Battery" with a trailing newline, and its `scope` attribute is not present
with the value "device" (with a trailing newline). -/
def qualifies (e : Entry) : Bool :=
  !(e.name == ".") && !(e.name == "..") &&
  (readAttr e "type" == some "Battery\n") &&
  !(readAttr e "scope" == some "device\n")

/-- Per-entry state, lines 140-152: `present` equal to "0" (plus newline)
forces `NoBattery`; otherwise the `status` attribute is mapped, with missing
or unrecognized values going to `Unknown`. -/
def entryState (e : Entry) : BatteryState :=
  if readAttr e "present" == some "0\n" then BatteryState.noBattery
  else
    match readAttr e "status" with
    | none => BatteryState.unknown
    | some s =>
      if s == "Charging\n" then BatteryState.charging
      else if s == "Discharging\n" then BatteryState.onBattery
      else if s == "Full\n" || s == "Not charging\n" then BatteryState.charged
      else BatteryState.unknown

/-- Per-entry percent, lines 154-159: missing `capacity` gives the sentinel
-1; otherwise `atoi` of the raw text, clamped from above at 100. -/
def entryPercent (e : Entry) : Int :=
  match readAttr e "capacity" with
  | none => -1
  | some s =>
    let pct := atoi s
    if pct > 100 then 100 else pct

/-- Per-entry seconds, lines 161-166: missing `time_to_empty_now` gives the
sentinel -1; otherwise `atoi` of the raw text, with any value at most 0
normalised to -1. -/
def entrySeconds (e : Entry) : Int :=
  match readAttr e "time_to_empty_now" with
  | none => -1
  | some s =>
    let secs := atoi s
    if secs ≤ 0 then -1 else secs

/-- The selection test of lines 172-180, comparing a candidate's seconds and
percent against the running best. -/
def chooseCandidate (best : PInfo) (secs pct : Int) : Bool :=
  if secs < 0 ∧ best.seconds < 0 then
    if pct < 0 ∧ best.percent < 0 then true
    else decide (pct > best.percent)
  else decide (secs > best.seconds)

/-- One iteration of the `readdir` loop (lines 113-187): a non-qualifying
entry leaves the running best unchanged; a qualifying entry overwrites it
exactly when `chooseCandidate` holds. -/
def stepEntry (best : PInfo) (e : Entry) : PInfo :=
  if qualifies e then
    let secs := entrySeconds e
    let pct := entryPercent e
    if chooseCandidate best secs pct then ⟨entryState e, secs, pct⟩ else best
  else best

/-- Embedding of `GetPowerInfo_Linux_sys_class_power_supply` (lines 97-191).
`listing` is the result of `opendir`/`readdir`: `none` when the power-supply
namespace cannot be listed, otherwise the sequence of entries. `prev` holds
the caller's values behind the three output pointers before the call; on
enumeration failure the function returns `false` without touching them. -/
def getPowerInfo (listing : Option (List Entry)) (prev : PInfo) : Bool × PInfo :=
  match listing with
  | none => (false, prev)
  | some es => (true, es.foldl stepEntry initInfo)

/-! Concrete entries used as inputs in the theorems below. -/

/-- An AC adapter entry: filtered out by the `type` test. -/
def mainsEntry : Entry := ⟨"AC", [("type", "Mains\n"), ("capacity", "100\n")]⟩

/-- A battery whose `capacity` file holds a negative reading. -/
def negCapEntry : Entry := ⟨"BAT0", [("type", "Battery\n"), ("capacity", "-5\n")]⟩

/-- A battery whose `capacity` file holds non-numeric text. -/
def badCapEntry : Entry := ⟨"BAT0", [("type", "Battery\n"), ("capacity", "unavailable\n")]⟩

/-- A battery reporting `capacity` above 100. -/
def overCapEntry : Entry := ⟨"BAT0", [("type", "Battery\n"), ("capacity", "150\n")]⟩

/-- A charging battery entry. -/
def chargingEntry : Entry := ⟨"BAT0", [("type", "Battery\n"), ("status", "Charging\n")]⟩

/-- A battery whose `time_to_empty_now` file reads 0. -/
def zeroTimeEntry : Entry :=
  ⟨"BAT0", [("type", "Battery\n"), ("capacity", "40\n"), ("time_to_empty_now", "0\n")]⟩

/-- A battery entry whose `present` file reads 0 while it still reports
capacity and time-to-empty values. -/
def presentZeroEntry : Entry :=
  ⟨"BAT0", [("type", "Battery\n"), ("present", "0\n"), ("status", "Discharging\n"),
            ("capacity", "50\n"), ("time_to_empty_now", "600\n")]⟩

/-! Helper lemmas shared by several proofs. -/

/-- A non-qualifying entry leaves the running best unchanged: its branch of
the loop body is `continue`. -/
theorem stepEntry_unqualified (best : PInfo) (e : Entry) (h : qualifies e = false) :
    stepEntry best e = best := by
  unfold stepEntry
  rw [h]
  rfl

/-- Folding the loop body over entries that all fail the filter is the
identity on the accumulator. -/
theorem foldl_unqualified (es : List Entry) (acc : PInfo)
    (h : ∀ e ∈ es, qualifies e = false) : es.foldl stepEntry acc = acc := by
  induction es generalizing acc with
  | nil => rfl
  | cons e es ih =>
    rw [List.foldl_cons, stepEntry_unqualified _ _ (h e (by simp))]
    exact ih _ (fun x hx => h x (by simp [hx]))

/-- The per-entry percent never exceeds 100 (the clamp at line 158). -/
theorem entryPercent_le_100 (e : Entry) : entryPercent e ≤ 100 := by
  unfold entryPercent
  split
  · omega
  · dsimp only
    split <;> omega

/-- The loop preserves the upper bound 100 on the accumulated percent. -/
theorem foldl_percent_le_100 (es : List Entry) (acc : PInfo)
    (h : acc.percent ≤ 100) : (es.foldl stepEntry acc).percent ≤ 100 := by
  induction es generalizing acc with
  | nil => exact h
  | cons e es ih =>
    rw [List.foldl_cons]
    apply ih
    unfold stepEntry
    split
    · dsimp only
      split
      · exact entryPercent_le_100 e
      · exact h
    · exact h

/-! The claims. -/

/-- C1: the spec's contract says `estimate_percent` (`fuel_level_LiIon`)
always returns a value in [0, 100], and the code's own doc comment says the
same; the sanity value `estimate_percent(3300, 0, 0) = 0` does hold, but the
linear-approximation branch is not clamped from above, so for example
input (3312, 0, 0) returns 107 and (3400, 0, 0) returns 896. -/
theorem fuel_level_escapes_range :
    fuel_level_LiIon 3300 0 0 = 0 ∧
    fuel_level_LiIon 3312 0 0 = 107 ∧
    ¬ fuel_level_LiIon 3312 0 0 ≤ 100 ∧
    fuel_level_LiIon 3400 0 0 = 896 := by decide

/-- C2: the selection test prefers the candidate exactly as the claim's
precedence states: with both seconds absent (negative sentinel), preference
holds iff the best's percent is absent or the candidate's percent is strictly
greater; otherwise iff the candidate's seconds are strictly greater (the
absent sentinel -1 compares lower than any known value). In particular a
candidate with seconds 100 and percent 10 beats a running best with absent
seconds and percent 90. -/
theorem chooseCandidate_spec (best : PInfo) (secs pct : Int) :
    (chooseCandidate best secs pct = true ↔
      (if secs < 0 ∧ best.seconds < 0 then
        best.percent < 0 ∨ pct > best.percent
      else secs > best.seconds)) ∧
    chooseCandidate ⟨BatteryState.unknown, -1, 90⟩ 100 10 = true := by
  refine ⟨?_, by decide⟩
  unfold chooseCandidate
  by_cases h : secs < 0 ∧ best.seconds < 0
  · rw [if_pos h, if_pos h]
    by_cases h2 : pct < 0 ∧ best.percent < 0
    · rw [if_pos h2]
      simp only [true_iff]
      exact Or.inl h2.2
    · rw [if_neg h2]
      simp only [decide_eq_true_eq]
      constructor
      · exact Or.inr
      · intro hor
        rcases hor with hb | hgt
        · omega
        · exact hgt
  · rw [if_neg h, if_neg h]
    simp only [decide_eq_true_eq]

/-- C8: when listing the power-supply namespace fails, the function returns
failure and the caller's three output locations keep their previous values:
no partial snapshot is written. -/
theorem enumeration_failure_untouched (prev : PInfo) :
    getPowerInfo none prev = (false, prev) := rfl

/-- C10: an entry whose `present` attribute reads "0" is not skipped: it
still qualifies, its per-entry state is NoBattery, and its capacity and
time-to-empty readings win the selection, so a successful snapshot can pair
state NoBattery with present seconds and percent values. -/
theorem present_zero_still_selected :
    qualifies presentZeroEntry = true ∧
    entryState presentZeroEntry = BatteryState.noBattery ∧
    getPowerInfo (some [presentZeroEntry]) initInfo =
      (true, ⟨BatteryState.noBattery, 600, 50⟩) := by decide

/-- C3 counterexample: with one system battery whose `capacity` file reads
-5, the query succeeds and the returned percent is -5: distinct from the -1
absent sentinel, hence present, yet outside [0, 100] (the code only clamps
from above). -/
theorem percent_not_clamped_below :
    (getPowerInfo (some [negCapEntry]) initInfo).2.percent = -5 ∧
    (getPowerInfo (some [negCapEntry]) initInfo).2.percent ≠ -1 ∧
    ¬ (0 ≤ (getPowerInfo (some [negCapEntry]) initInfo).2.percent) := by decide

/-- C3 amended: for every successful query the returned percent is at most
100 (the clamp applies to every selected candidate), so every nonnegative
returned percent lies in [0, 100]; a reported capacity of 150 yields 100.
Negative capacity readings, however, pass through below 0 unclamped. -/
theorem percent_at_most_100 (es : List Entry) (prev : PInfo) :
    (getPowerInfo (some es) prev).2.percent ≤ 100 ∧
    (getPowerInfo (some [overCapEntry]) initInfo).2.percent = 100 := by
  refine ⟨?_, by decide⟩
  exact foldl_percent_le_100 es initInfo (by decide)

/-- C4 counterexample: an entry whose `capacity` file holds the non-numeric
text "unavailable" gets per-entry percent 0 (atoi of a non-numeric string),
a numeric reading, not the -1 absent sentinel the claim requires. -/
theorem unparsable_capacity_reads_zero :
    entryPercent badCapEntry = 0 ∧ (0 : Int) ≠ -1 := by decide

/-- C4 amended: a missing `capacity` attribute gives the absent sentinel -1;
a present attribute is parsed with atoi semantics (longest leading integer,
0 when none) and clamped from above at 100, so an unparsable value yields
the numeric reading 0 rather than absent. -/
theorem entryPercent_amended (e : Entry) :
    (readAttr e "capacity" = none → entryPercent e = -1) ∧
    (∀ s, readAttr e "capacity" = some s →
      entryPercent e = if atoi s > 100 then 100 else atoi s) := by
  constructor
  · intro h
    unfold entryPercent
    rw [h]
  · intro s h
    unfold entryPercent
    rw [h]

/-- Witness for the amended C4 theorem at concrete entries. -/
theorem entryPercent_amended_witness :
    entryPercent ⟨"BAT9", []⟩ = -1 ∧
    entryPercent ⟨"BAT0", [("capacity", "42\n")]⟩ =
      if atoi "42\n" > 100 then 100 else atoi "42\n" :=
  ⟨(entryPercent_amended ⟨"BAT9", []⟩).1 rfl,
   (entryPercent_amended ⟨"BAT0", [("capacity", "42\n")]⟩).2 "42\n" rfl⟩

/-- C5: an entry whose `type` attribute is missing or differs from "Battery"
(with its trailing newline), or whose `scope` attribute reads "device", is
skipped: removing it from the listing leaves the returned snapshot
unchanged, whatever its other attributes. -/
theorem filtered_entry_no_effect (e : Entry)
    (h : readAttr e "type" ≠ some "Battery\n" ∨ readAttr e "scope" = some "device\n")
    (es1 es2 : List Entry) (prev : PInfo) :
    getPowerInfo (some (es1 ++ e :: es2)) prev = getPowerInfo (some (es1 ++ es2)) prev := by
  have hq : qualifies e = false := by
    unfold qualifies
    rcases h with h | h
    · simp [h]
    · simp [h]
  simp only [getPowerInfo]
  rw [List.foldl_append, List.foldl_append, List.foldl_cons,
    stepEntry_unqualified _ _ hq]

/-- Witness for C5: dropping an AC adapter entry does not change the result. -/
theorem filtered_entry_no_effect_witness :
    getPowerInfo (some ([] ++ mainsEntry :: [])) initInfo =
      getPowerInfo (some ([] ++ [])) initInfo :=
  filtered_entry_no_effect mainsEntry (Or.inl (by decide)) [] [] initInfo

/-- C6: for an entry that reaches the state computation, a `present`
attribute reading "0" forces NoBattery; otherwise the `status` attribute
maps Charging to Charging, Discharging to OnBattery, Full or Not charging to
Charged, and a missing or unrecognized status to Unknown (all raw values
carry their trailing newline). -/
theorem entryState_spec (e : Entry) :
    (readAttr e "present" = some "0\n" → entryState e = BatteryState.noBattery) ∧
    (readAttr e "present" ≠ some "0\n" →
      ((readAttr e "status" = none → entryState e = BatteryState.unknown) ∧
       (∀ s, readAttr e "status" = some s →
         entryState e =
           if s = "Charging\n" then BatteryState.charging
           else if s = "Discharging\n" then BatteryState.onBattery
           else if s = "Full\n" ∨ s = "Not charging\n" then BatteryState.charged
           else BatteryState.unknown))) := by
  refine ⟨fun h => ?_, fun hp => ⟨fun hn => ?_, fun s hs => ?_⟩⟩
  · simp [entryState, h]
  · simp [entryState, hp, hn]
  · simp only [entryState, hs, beq_iff_eq, Option.some.injEq]
    rw [if_neg hp]
    by_cases h1 : s = "Charging\n"
    · simp [h1]
    · by_cases h2 : s = "Discharging\n"
      · simp [h1, h2]
      · by_cases h3 : s = "Full\n" ∨ s = "Not charging\n"
        · simp only [if_neg h1, if_neg h2, if_pos h3]
          rcases h3 with h3 | h3 <;> simp [h1, h2, h3]
        · push_neg at h3
          simp [h1, h2, h3.1, h3.2]

/-- Witness for C6 at a concrete charging entry. -/
theorem entryState_spec_witness :
    entryState chargingEntry = BatteryState.charging := by
  have h := ((entryState_spec chargingEntry).2 (by decide)).2 "Charging\n" rfl
  simpa using h

/-- C7: the per-entry seconds value is the absent sentinel -1 exactly when
`time_to_empty_now` is missing or its text parses (atoi, which yields 0 on
non-numeric text) to a value at most 0; such a candidate, against a running
best that also lacks seconds, is selected by the percent rule alone. -/
theorem entrySeconds_spec (e : Entry) :
    (entrySeconds e = -1 ↔
      readAttr e "time_to_empty_now" = none ∨
      ∃ s, readAttr e "time_to_empty_now" = some s ∧ atoi s ≤ 0) ∧
    (∀ best pct, entrySeconds e = -1 → best.seconds < 0 →
      (chooseCandidate best (entrySeconds e) pct = true ↔
        (pct < 0 ∧ best.percent < 0) ∨ pct > best.percent)) := by
  constructor
  · unfold entrySeconds
    cases h : readAttr e "time_to_empty_now" with
    | none => simp
    | some s =>
      dsimp only
      constructor
      · intro h1
        refine Or.inr ⟨s, rfl, ?_⟩
        by_contra hgt
        rw [if_neg hgt] at h1
        omega
      · rintro (h1 | ⟨t, ht, hle⟩)
        · exact absurd h1 (by simp)
        · obtain rfl : s = t := Option.some_inj.mp ht
          rw [if_pos hle]
  · intro best pct h hb
    rw [h]
    unfold chooseCandidate
    rw [if_pos ⟨by omega, hb⟩]
    by_cases h2 : pct < 0 ∧ best.percent < 0
    · rw [if_pos h2]
      simp only [true_iff]
      exact Or.inl h2
    · rw [if_neg h2]
      simp only [decide_eq_true_eq]
      constructor
      · exact Or.inr
      · rintro (h3 | h3)
        · exact absurd h3 h2
        · exact h3

/-- Witness for C7: a battery reporting `time_to_empty_now` 0 is compared by
percent against the initial running best. -/
theorem entrySeconds_spec_witness :
    chooseCandidate initInfo (entrySeconds zeroTimeEntry) 40 = true ↔
      ((40 : Int) < 0 ∧ initInfo.percent < 0) ∨ (40 : Int) > initInfo.percent :=
  (entrySeconds_spec zeroTimeEntry).2 initInfo 40 (by decide) (by decide)

/-- C9: when the listing succeeds but no entry qualifies (empty namespace or
everything filtered out), the query succeeds and returns the initial running
best: state NoBattery with both seconds and percent absent. -/
theorem no_qualifying_entries (es : List Entry)
    (h : ∀ e ∈ es, qualifies e = false) (prev : PInfo) :
    getPowerInfo (some es) prev = (true, ⟨BatteryState.noBattery, -1, -1⟩) := by
  simp only [getPowerInfo]
  rw [foldl_unqualified es initInfo h]
  rfl

/-- Witness for C9: a listing holding only an AC adapter entry. -/
theorem no_qualifying_entries_witness :
    getPowerInfo (some [mainsEntry]) initInfo =
      (true, ⟨BatteryState.noBattery, -1, -1⟩) :=
  no_qualifying_entries [mainsEntry] (by decide) initInfo
